import Mathlib

/-!
Shallow embedding of the hassio-screenshot-frame add-on (two Python sources:
`src/screenshot-frame/main.py` and `src/main.py`) and proofs about its
device-sync state machine, content classification, request-header
construction, scheduler timing, renderer zoom handling and status updates.

External effects (the Samsung TV client calls, file system, HTTP responses)
are modelled by an environment record listing the outcome of each external
call; the embedded functions replay the source's control flow over those
outcomes, producing an event trace, the returned value, and the persisted
`last-art-id` record.
-/

namespace ScreenshotFrame

/-- Python truthiness of an optional string: `None` and `''` are falsy. -/
def optTruthy : Option String → Bool
  | none => false
  | some s => decide (s ≠ "")

/-- Lower-casing of a Python string (`str.lower`), per character. -/
def lowerStr (s : String) : String := String.mk (s.data.map Char.toLower)

/-- Python `str.startswith` on the character sequences. -/
def strStarts (s p : String) : Bool :=
  decide (s.data.take p.data.length = p.data)

/-- Events observable during one device-sync invocation, in call order. -/
inductive Ev where
  | openTv
  | supportedQ (res : Bool)
  | readImage
  | uploadTry (withMatte : Bool)
  | replaceAttempt (lastId : String)
  | artmodeQ
  | selectTry (id : String) (showFlag : Option Bool)
  | deleteTry (id : String)
  | closeTv
  | writeRecord (id : String)
deriving DecidableEq, Repr

/-- Outcome of the first `tv.upload(...)` call: a returned id (possibly
`None`), a `TypeError` (signature mismatch, triggers the fallback call), or
any other exception (propagates to the outer handler). -/
inductive UpOutcome where
  | ok (res : Option String)
  | typeErr
  | err
deriving DecidableEq, Repr

/-- Outcome of `tv.select_image(id, show=..)`: success, `TypeError`
(triggers the retry without the `show` keyword), or another exception. -/
inductive SelOutcome where
  | ok
  | typeErr
  | err
deriving DecidableEq, Repr

/-- Outcome of a call whose failure is only caught generically. -/
inductive SimpleOutcome where
  | ok
  | err
deriving DecidableEq, Repr

/-- Which return path of the sync function was taken.  The source returns
`None` on every failure path; the paths are distinguished in the source by
their log messages (`'TV does not support art mode via this API'` for
`unsupported`, `'Upload returned id: None'`/no-select for `noId`). -/
inductive Outcome where
  | ok
  | unsupported
  | noId
  | error
deriving DecidableEq, Repr

/-- Environment for `_sync_upload` in `src/screenshot-frame/main.py`:
the outcome of every external call the function can make.
`lastRecord` is the content of `/data/last-art-id.txt` as read by the
source (`none` covers a missing, unreadable or empty file, because the
source maps those to `last_id = None` via `.strip() or None`). -/
structure Env where
  openOk : Bool
  supportedRes : Option Bool
  readOk : Bool
  lastRecord : Option String
  matte : Option String
  uploadFirst : UpOutcome
  uploadSecond : Option (Option String)
  artmode : Option (Bool × String)
  selectShow : SelOutcome
  selectPlain : SimpleOutcome
  deleteRes : SimpleOutcome
  closeOk : Bool
  writeOk : Bool
deriving Repr

/-- Result of one sync invocation: the event trace, the value returned to
the caller, the persisted `last-art-id` record after the run, the content
id obtained from the upload phase (even when a later step failed), whether
a select attempt succeeded (`selection_successful` in the source), and the
return-path tag. -/
structure SyncResult where
  trace : List Ev
  result : Option String
  record : Option String
  cid : Option String
  selOk : Bool
  outcome : Outcome
deriving DecidableEq, Repr

/-- Upload phase (`tv.upload` with the matte-aware signature first, then a
plain retry on `TypeError`); returns the events and `some r` when a call
returned `r`, `none` when the phase raised out of the function body. -/
def uploadPhase (matte : Option String) (first : UpOutcome)
    (second : Option (Option String)) : List Ev × Option (Option String) :=
  let wm := matte.isSome
  match first with
  | .ok r => ([.uploadTry wm], some r)
  | .err => ([.uploadTry wm], none)
  | .typeErr =>
    match second with
    | some r => ([.uploadTry wm, .uploadTry false], some r)
    | none => ([.uploadTry wm, .uploadTry false], none)

/-- Select phase: first attempt passes the `show` keyword; on `TypeError` a
second attempt omits it.  Returns the events and `selection_successful`. -/
def selectPhase (sShow : SelOutcome) (sPlain : SimpleOutcome) (id : String)
    (lshow : Bool) : List Ev × Bool :=
  match sShow with
  | .ok => ([.selectTry id (some lshow)], true)
  | .err => ([.selectTry id (some lshow)], false)
  | .typeErr =>
    match sPlain with
    | .ok => ([.selectTry id (some lshow), .selectTry id none], true)
    | .err => ([.selectTry id (some lshow), .selectTry id none], false)

/-- Cleanup phase: `tv.delete(last_id)` is called exactly when selection
succeeded, a previous id exists (truthy) and differs from the new id. -/
def deletePhase (sel : Bool) (lastRecord : Option String) (id : String) :
    List Ev :=
  if sel then
    match lastRecord with
    | some lid => if lid ≠ "" ∧ lid ≠ id then [.deleteTry lid] else []
    | none => []
  else []

/-- Condition under which the source forces `show = True`: `get_artmode()`
returned a truthy value whose `str(...).lower()` is `on`, `true` or `1`
(`none` models the call raising, which the source swallows). -/
def artModeOn (artmode : Option (Bool × String)) : Bool :=
  match artmode with
  | none => false
  | some (truthy, s) =>
    truthy &&
      (lowerStr s == "on" || lowerStr s == "true" || lowerStr s == "1")

/-- The `show` flag actually passed to the first select attempt
(`local_show` in the source). -/
def forcedShow (artmode : Option (Bool × String)) (shw : Bool) : Bool :=
  if artModeOn artmode then true else shw

/-- Close events emitted by the in-body `tv.close()`: if it raises, the
outer exception handler attempts one more close. -/
def closeEvts (closeOk : Bool) : List Ev :=
  if closeOk then [.closeTv] else [.closeTv, .closeTv]

/-- Embedding of `_sync_upload` in `src/screenshot-frame/main.py`
(lines 113-223): connect, capability check (fail fast when unsupported),
read image and cached id, upload (with `TypeError` fallback), art-mode
adjust of the show flag, select (with `TypeError` fallback), delete of the
previous id only after a successful select, close, and persistence of the
new id only when selection succeeded. -/
def syncUpload (e : Env) (shw : Bool) : SyncResult :=
  if e.openOk = false then
    ⟨[.openTv, .closeTv], none, e.lastRecord, none, false, .error⟩
  else
    match e.supportedRes with
    | none => ⟨[.openTv, .closeTv], none, e.lastRecord, none, false, .error⟩
    | some false =>
      ⟨[.openTv, .supportedQ false] ++ closeEvts e.closeOk, none,
        e.lastRecord, none, false, .unsupported⟩
    | some true =>
      if e.readOk = false then
        ⟨[.openTv, .supportedQ true, .closeTv], none, e.lastRecord, none,
          false, .error⟩
      else
        let pre : List Ev := [.openTv, .supportedQ true, .readImage]
        let up := uploadPhase e.matte e.uploadFirst e.uploadSecond
        match up.2 with
        | none =>
          ⟨pre ++ up.1 ++ [.closeTv], none, e.lastRecord, none, false, .error⟩
        | some none =>
          if e.closeOk = false then
            ⟨pre ++ up.1 ++ [.closeTv, .closeTv], none, e.lastRecord, none,
              false, .error⟩
          else
            ⟨pre ++ up.1 ++ [.closeTv], none, e.lastRecord, none, false, .noId⟩
        | some (some id) =>
          let lshow := forcedShow e.artmode shw
          let sp := selectPhase e.selectShow e.selectPlain id lshow
          let delEvts := deletePhase sp.2 e.lastRecord id
          let body := pre ++ up.1 ++ [.artmodeQ] ++ sp.1 ++ delEvts
          if e.closeOk = false then
            ⟨body ++ [.closeTv, .closeTv], none, e.lastRecord, some id, sp.2,
              .error⟩
          else
            let doWrite := sp.2 && decide (id ≠ "")
            ⟨body ++ [.closeTv] ++ (if doWrite then [.writeRecord id] else []),
              some id,
              if doWrite && e.writeOk then some id else e.lastRecord,
              some id, sp.2, .ok⟩

/-- Environment for `upload_image_to_tv_async` in `src/main.py`.
`replaceNet` abstracts the net result of the in-place replace probing
cascade (lines 111-197): every individual attempt swallows its own
exceptions, so the cascade's only effect is a possibly-set `content_id`. -/
structure EnvA where
  startOk : Bool
  supportedRes : Option Bool
  readOk : Bool
  replaceLast : Bool
  lastRecord : Option String
  replaceNet : Option String
  matte : Option String
  uploadFirst : UpOutcome
  uploadSecond : Option (Option String)
  selectShow : SelOutcome
  selectPlain : SimpleOutcome
  closeOk : Bool
  writeOk : Bool
deriving Repr

/-- Replace phase of `src/main.py`: runs only when `TV_REPLACE_LAST` is set
and a truthy cached id was read; never raises out of the function. -/
def replacePhase (e : EnvA) : List Ev × Option String :=
  if e.replaceLast then
    match e.lastRecord with
    | some lid => if lid ≠ "" then ([.replaceAttempt lid], e.replaceNet) else ([], none)
    | none => ([], none)
  else ([], none)

/-- Embedding of `upload_image_to_tv_async` in `src/main.py`
(lines 70-241): connect, capability check, optional in-place replace, upload
(with `TypeError` fallback), select with the caller's `show` flag (no
art-mode adjustment in this variant, and no delete of the previous id),
close, and persistence of the new id whenever it is truthy — regardless of
whether selection succeeded. -/
def syncUploadA (e : EnvA) (shw : Bool) : SyncResult :=
  if e.startOk = false then
    ⟨[.openTv, .closeTv], none, e.lastRecord, none, false, .error⟩
  else
    match e.supportedRes with
    | none => ⟨[.openTv, .closeTv], none, e.lastRecord, none, false, .error⟩
    | some false =>
      ⟨[.openTv, .supportedQ false] ++ closeEvts e.closeOk, none,
        e.lastRecord, none, false, .unsupported⟩
    | some true =>
      if e.readOk = false then
        ⟨[.openTv, .supportedQ true, .closeTv], none, e.lastRecord, none,
          false, .error⟩
      else
        let pre : List Ev := [.openTv, .supportedQ true, .readImage]
        let rp := replacePhase e
        let up :=
          if optTruthy rp.2 then (([] : List Ev), some rp.2)
          else uploadPhase e.matte e.uploadFirst e.uploadSecond
        match up.2 with
        | none =>
          ⟨pre ++ rp.1 ++ up.1 ++ [.closeTv], none, e.lastRecord, none,
            false, .error⟩
        | some none =>
          if e.closeOk = false then
            ⟨pre ++ rp.1 ++ up.1 ++ [.closeTv, .closeTv], none, e.lastRecord,
              none, false, .error⟩
          else
            ⟨pre ++ rp.1 ++ up.1 ++ [.closeTv], none, e.lastRecord, none,
              false, .noId⟩
        | some (some id) =>
          let sp := selectPhase e.selectShow e.selectPlain id shw
          let body := pre ++ rp.1 ++ up.1 ++ sp.1
          if e.closeOk = false then
            ⟨body ++ [.closeTv, .closeTv], none, e.lastRecord, some id, sp.2,
              .error⟩
          else
            let doWrite := decide (id ≠ "")
            ⟨body ++ [.closeTv] ++ (if doWrite then [.writeRecord id] else []),
              some id,
              if doWrite && e.writeOk then some id else e.lastRecord,
              some id, sp.2, .ok⟩

/-! Content classification (`screenshot_loop`, `src/screenshot-frame/main.py`
lines 529-536 and `src/main.py` lines 311-316): a 200 response is routed to
the renderer when its lower-cased content-type starts with `text/html` or
the body's first non-whitespace byte is `<`. -/

/-- ASCII whitespace bytes stripped by Python's `bytes.lstrip()`. -/
def isWsByte (b : Nat) : Bool :=
  b = 32 || b = 9 || b = 10 || b = 13 || b = 11 || b = 12

/-- First non-whitespace byte of a body, as `bytes.lstrip()` then a
one-byte `startswith` would see it. -/
def firstNonWs (body : List Nat) : Option Nat :=
  (body.dropWhile isWsByte).head?

/-- The content type the source compares against:
`(resp.headers.get('content-type') or '').lower()`. -/
def ctypeOf (h : Option String) : String := lowerStr (h.getD "")

/-- Embedding of the classification condition
`ctype.startswith('text/html') or (len(content) > 0 and
content.lstrip().startswith(b'<'))`. -/
def isHtmlResponse (h : Option String) (body : List Nat) : Bool :=
  strStarts (ctypeOf h) "text/html" ||
    (decide (0 < body.length) && decide (firstNonWs body = some 60))

/-! Request-header construction (`screenshot_loop`,
`src/screenshot-frame/main.py` lines 510-523). -/

/-- State of the `TARGET_HEADERS` configuration value: unset, set but not a
parseable JSON map (unparseable JSON, or JSON that is not an object), or a
parsed header map. -/
inductive HeaderCfg where
  | absent
  | malformed
  | valid (hs : List (String × String))

/-- Assignment `d[k] = v` on a Python dict represented as an ordered
association list with unique keys. -/
def dictInsert (d : List (String × String)) (k v : String) :
    List (String × String) :=
  if d.any (fun p => p.1 = k) then
    d.map (fun p => if p.1 = k then (k, v) else p)
  else d ++ [(k, v)]

/-- `d.update(e)` on Python dicts. -/
def dictUpdate (d e : List (String × String)) : List (String × String) :=
  e.foldl (fun acc kv => dictInsert acc kv.1 kv.2) d

/-- Headers contributed by the `TARGET_HEADERS` configuration: the parsed
map when it is a dict, nothing otherwise (parse failure is logged and the
cycle proceeds). -/
def staticHeaders : HeaderCfg → List (String × String)
  | .valid hs => dictUpdate [] hs
  | _ => []

/-- Embedding of the header/auth construction: start from the static
headers, then `if TARGET_AUTH_TYPE == 'bearer' and TARGET_TOKEN:` add the
token header, `elif TARGET_AUTH_TYPE == 'basic' and TARGET_USERNAME and
TARGET_PASSWORD:` build a `BasicAuth` credential instead.  Returns the
header dict and the optional basic-auth credential pair. -/
def buildRequest (cfg : HeaderCfg) (authType : String) (token : Option String)
    (tokenHeader tokenPre : String) (username password : Option String) :
    List (String × String) × Option (String × String) :=
  let headers := staticHeaders cfg
  if authType = "bearer" ∧ optTruthy token = true then
    (dictInsert headers tokenHeader (tokenPre ++ " " ++ token.getD ""), none)
  else if authType = "basic" ∧ optTruthy username = true ∧
      optTruthy password = true then
    (headers, some (username.getD "", password.getD ""))
  else
    (headers, none)

/-- Keys of a header dict. -/
def keysOf (d : List (String × String)) : List String := d.map Prod.fst

/-! Cycle scheduler (`screenshot_loop`, `src/screenshot-frame/main.py`
lines 596-620), with the event-loop clock modelled as exact rational
time. -/

/-- The `next_cycle_time` value computed at the end of a cycle before the
sleep decision: on the first cycle it is `cycle_start + INTERVAL`, afterwards
the previous target plus `INTERVAL`. -/
def schedTarget (prevTarget : Option ℚ) (cycleStart interval : ℚ) : ℚ :=
  match prevTarget with
  | none => cycleStart + interval
  | some t => t + interval

/-- End-of-cycle scheduling step: returns the `next_cycle_time` stored for
the following iteration and the start time of the next cycle.  When
`sleep_time = target - now` is positive the loop sleeps until the target;
otherwise the next cycle starts immediately and the baseline resets to
`now`. -/
def schedStep (prevTarget : Option ℚ) (cycleStart now interval : ℚ) :
    ℚ × ℚ :=
  let target := schedTarget prevTarget cycleStart interval
  if 0 < target - now then (target, target) else (now, now)

/-! Renderer zoom handling: `render_url_with_pyppeteer`
(`src/screenshot-frame/main.py` lines 331-333) and
`render_url_with_playwright` (`src/main.py` lines 260-265). -/

/-- How a renderer applies the requested zoom: an optional CSS layout zoom
percent set on `document.body`, and an optional `device_scale_factor`
passed to the browser context. -/
structure RenderConfig where
  layoutZoomPercent : Option Nat
  deviceScaleFactor : Option ℚ
deriving DecidableEq, Repr

/-- Zoom application of the pyppeteer renderer: `if zoom != 100:` evaluate
`document.body.style.zoom = "{zoom}%"`; the device pixel ratio is never
touched. -/
def pyppeteerRenderZoom (zoom : Nat) : RenderConfig :=
  { layoutZoomPercent := if zoom ≠ 100 then some zoom else none
    deviceScaleFactor := none }

/-- Zoom application of the playwright renderer:
`device_scale_factor = zoom / 100.0` on the new browser context; no layout
zoom is applied. -/
def playwrightRenderZoom (zoom : Nat) : RenderConfig :=
  { layoutZoomPercent := none
    deviceScaleFactor := some ((zoom : ℚ) / 100) }

/-! Status updates of one cycle (`screenshot_loop`,
`src/screenshot-frame/main.py` lines 552-593). -/

/-- The status triple guarded by `_status_lock`. -/
structure SyncStatus where
  lastSyncTime : Option ℚ
  lastSuccess : Bool
  lastError : Option String
deriving DecidableEq, Repr

/-- Result of the `upload_image_to_tv_async` call as seen by the loop:
either the call raised, or it returned an optional content id. -/
inductive UploadCall where
  | raised (msg : String)
  | returned (cid : Option String)
deriving DecidableEq, Repr

/-- Status effect of the fetch phase: a fetch exception records its message
in `_last_error`; success and non-200 responses leave the status alone. -/
def fetchPhase (fetchError : Option String) (s : SyncStatus) : SyncStatus :=
  match fetchError with
  | some msg => { s with lastError := some msg }
  | none => s

/-- Status effect of the TV phase of one cycle (`if TV_IP:` ... `else:`):
with a TV configured the upload outcome decides the status; without a TV,
`if TARGET_URL:` marks the cycle successful unconditionally. -/
def tvPhase (tvConfigured targetUrlSet : Bool) (call : UploadCall)
    (s : SyncStatus) (now : ℚ) : SyncStatus :=
  if tvConfigured then
    match call with
    | .returned cid =>
      if optTruthy cid then
        { lastSyncTime := some now, lastSuccess := true, lastError := none }
      else
        { s with lastSuccess := false,
                 lastError := some "Upload returned no ID" }
    | .raised msg =>
      { s with lastSuccess := false, lastError := some msg }
  else
    if targetUrlSet then
      { lastSyncTime := some now, lastSuccess := true, lastError := none }
    else s

/-- Status updates of one whole cycle: fetch phase then TV phase. -/
def cycleStatus (tvConfigured targetUrlSet : Bool) (fetchError : Option String)
    (call : UploadCall) (s : SyncStatus) (now : ℚ) : SyncStatus :=
  tvPhase tvConfigured targetUrlSet call (fetchPhase fetchError s) now

/-! Helper lemmas about the phases of the sync state machine. -/

theorem mem_uploadPhase_fst {m : Option String} {f : UpOutcome}
    {s : Option (Option String)} {ev : Ev}
    (h : ev ∈ (uploadPhase m f s).1) : ∃ wm, ev = .uploadTry wm := by
  cases f <;> cases s <;> simp [uploadPhase] at h <;>
    first
    | exact ⟨_, rfl⟩
    | (rcases h with h | h <;> exact ⟨_, h⟩)
    | exact ⟨_, h⟩

theorem mem_selectPhase_fst {a : SelOutcome} {b : SimpleOutcome} {id : String}
    {ls : Bool} {ev : Ev} (h : ev ∈ (selectPhase a b id ls).1) :
    ev = .selectTry id (some ls) ∨ ev = .selectTry id none := by
  cases a <;> cases b <;> simp [selectPhase] at h <;> tauto

theorem selectTry_mem_selectPhase (a : SelOutcome) (b : SimpleOutcome)
    (id : String) (ls : Bool) :
    Ev.selectTry id (some ls) ∈ (selectPhase a b id ls).1 := by
  cases a <;> cases b <;> simp [selectPhase]

theorem mem_deletePhase {sel : Bool} {last : Option String} {id : String}
    {ev : Ev} (h : ev ∈ deletePhase sel last id) :
    ∃ lid, ev = .deleteTry lid ∧ sel = true ∧ last = some lid ∧
      lid ≠ "" ∧ lid ≠ id := by
  cases sel <;> simp [deletePhase] at h
  rcases last with _ | lid
  · simp at h
  · by_cases hc : lid ≠ "" ∧ lid ≠ id <;> simp [hc] at h
    exact ⟨lid, by simp [h, hc.1, hc.2]⟩

theorem deleteTry_mem_deletePhase {sel : Bool} {last : Option String}
    {id lid : String} :
    Ev.deleteTry lid ∈ deletePhase sel last id ↔
      sel = true ∧ last = some lid ∧ lid ≠ "" ∧ lid ≠ id := by
  constructor
  · intro h
    rcases mem_deletePhase h with ⟨lid2, heq, hsel, hlast, hne, hneid⟩
    cases heq
    exact ⟨hsel, hlast, hne, hneid⟩
  · rintro ⟨hsel, hlast, hne, hneid⟩
    subst hsel
    simp [deletePhase, hlast, hne, hneid]

/-- Traces free of select, delete and record-write events. -/
def noSDW (t : List Ev) : Prop :=
  ∀ ev ∈ t, (∀ i sf, ev ≠ .selectTry i sf) ∧ (∀ l, ev ≠ .deleteTry l) ∧
    (∀ i, ev ≠ .writeRecord i)

/-- Shape of every `syncUpload` run: either the run stopped before the
upload returned an id (no select, delete or write events at all, nothing
returned, record untouched), or the trace is a prefix free of
select/delete/write events followed by the select phase, the delete phase
and a closing tail, with the result, record and tail determined by whether
the in-body close succeeded. -/
theorem syncUpload_spec (e : Env) (shw : Bool) :
    ((syncUpload e shw).result = none ∧
     (syncUpload e shw).record = e.lastRecord ∧
     (syncUpload e shw).cid = none ∧
     (syncUpload e shw).selOk = false ∧
     noSDW (syncUpload e shw).trace) ∨
    (∃ id preE tailE,
      noSDW preE ∧
      (syncUpload e shw).cid = some id ∧
      (syncUpload e shw).selOk =
        (selectPhase e.selectShow e.selectPlain id
          (forcedShow e.artmode shw)).2 ∧
      (syncUpload e shw).trace =
        preE ++
          (selectPhase e.selectShow e.selectPlain id
            (forcedShow e.artmode shw)).1 ++
          deletePhase
            (selectPhase e.selectShow e.selectPlain id
              (forcedShow e.artmode shw)).2 e.lastRecord id ++ tailE ∧
      ((e.closeOk = false ∧ (syncUpload e shw).result = none ∧
          (syncUpload e shw).record = e.lastRecord ∧
          tailE = [.closeTv, .closeTv]) ∨
       (e.closeOk = true ∧ (syncUpload e shw).result = some id ∧
          (syncUpload e shw).record =
            (if ((selectPhase e.selectShow e.selectPlain id
                  (forcedShow e.artmode shw)).2 && decide (id ≠ "")) &&
                e.writeOk
             then some id else e.lastRecord) ∧
          tailE = [.closeTv] ++
            (if (selectPhase e.selectShow e.selectPlain id
                  (forcedShow e.artmode shw)).2 && decide (id ≠ "")
             then [.writeRecord id] else [])))) := by
  obtain ⟨op, sup, rd, last, mat, upF, upS, art, selS, selP, del, cl, wr⟩ := e
  cases op
  · left; simp [syncUpload, noSDW]
  · rcases sup with _ | b
    · left; simp [syncUpload, noSDW]
    · cases b
      · left
        cases cl <;> simp [syncUpload, closeEvts, noSDW]
      · cases rd
        · left; simp [syncUpload, noSDW]
        · cases upF with
          | ok r =>
            rcases r with _ | id
            · left
              cases cl <;> simp [syncUpload, uploadPhase, noSDW]
            · cases cl
              · right
                refine ⟨id, [.openTv, .supportedQ true, .readImage,
                  .uploadTry mat.isSome, .artmodeQ], [.closeTv, .closeTv],
                  ?_, ?_, ?_, ?_, Or.inl ⟨rfl, ?_, ?_, rfl⟩⟩ <;>
                  simp [syncUpload, uploadPhase, noSDW]
              · right
                refine ⟨id, [.openTv, .supportedQ true, .readImage,
                  .uploadTry mat.isSome, .artmodeQ],
                  [.closeTv] ++
                    (if (selectPhase selS selP id (forcedShow art shw)).2 &&
                        decide (id ≠ "")
                     then [.writeRecord id] else []),
                  ?_, ?_, ?_, ?_, Or.inr ⟨rfl, ?_, ?_, rfl⟩⟩ <;>
                  simp [syncUpload, uploadPhase, noSDW]
          | err =>
            left; simp [syncUpload, uploadPhase, noSDW]
          | typeErr =>
            rcases upS with _ | r
            · left; simp [syncUpload, uploadPhase, noSDW]
            · rcases r with _ | id
              · left
                cases cl <;> simp [syncUpload, uploadPhase, noSDW]
              · cases cl
                · right
                  refine ⟨id, [.openTv, .supportedQ true, .readImage,
                    .uploadTry mat.isSome, .uploadTry false, .artmodeQ],
                    [.closeTv, .closeTv],
                    ?_, ?_, ?_, ?_, Or.inl ⟨rfl, ?_, ?_, rfl⟩⟩ <;>
                    simp [syncUpload, uploadPhase, noSDW]
                · right
                  refine ⟨id, [.openTv, .supportedQ true, .readImage,
                    .uploadTry mat.isSome, .uploadTry false, .artmodeQ],
                    [.closeTv] ++
                      (if (selectPhase selS selP id (forcedShow art shw)).2 &&
                          decide (id ≠ "")
                       then [.writeRecord id] else []),
                    ?_, ?_, ?_, ?_, Or.inr ⟨rfl, ?_, ?_, rfl⟩⟩ <;>
                    simp [syncUpload, uploadPhase, noSDW]

/-- Shape of every `syncUploadA` run (`src/main.py`): either nothing was
returned and the record is untouched, or an id was returned, the in-body
close succeeded, and the record was rewritten to the id whenever the id is
truthy and the file write succeeded — with no dependence on whether
selection succeeded. -/
theorem syncUploadA_spec (e : EnvA) (shw : Bool) :
    ((syncUploadA e shw).result = none ∧
     (syncUploadA e shw).record = e.lastRecord) ∨
    (∃ id, (syncUploadA e shw).result = some id ∧ e.closeOk = true ∧
      (syncUploadA e shw).record =
        (if decide (id ≠ "") && e.writeOk then some id else e.lastRecord) ∧
      (syncUploadA e shw).selOk =
        (selectPhase e.selectShow e.selectPlain id shw).2) := by
  obtain ⟨st, sup, rd, rl, last, rnet, mat, upF, upS, selS, selP, cl, wr⟩ := e
  cases st
  · left; simp [syncUploadA]
  · rcases sup with _ | b
    · left; simp [syncUploadA]
    · cases b
      · left; simp [syncUploadA]
      · cases rd
        · left; simp [syncUploadA]
        · by_cases hrep :
            optTruthy (replacePhase ⟨true, some true, true, rl, last, rnet,
              mat, upF, upS, selS, selP, cl, wr⟩).2 = true
          · rcases hid : (replacePhase ⟨true, some true, true, rl, last,
              rnet, mat, upF, upS, selS, selP, cl, wr⟩).2 with _ | id
            · rw [hid] at hrep; simp [optTruthy] at hrep
            · rw [hid] at hrep
              cases cl
              · left; simp [syncUploadA, hrep, hid]
              · right
                exact ⟨id, by simp [syncUploadA, hrep, hid], rfl,
                  by simp [syncUploadA, hrep, hid],
                  by simp [syncUploadA, hrep, hid]⟩
          · cases upF with
            | ok r =>
              rcases r with _ | id
              · left; cases cl <;> simp [syncUploadA, hrep, uploadPhase]
              · cases cl
                · left; simp [syncUploadA, hrep, uploadPhase]
                · right
                  exact ⟨id, by simp [syncUploadA, hrep, uploadPhase], rfl,
                    by simp [syncUploadA, hrep, uploadPhase],
                    by simp [syncUploadA, hrep, uploadPhase]⟩
            | err => left; simp [syncUploadA, hrep, uploadPhase]
            | typeErr =>
              rcases upS with _ | r
              · left; simp [syncUploadA, hrep, uploadPhase]
              · rcases r with _ | id
                · left; cases cl <;> simp [syncUploadA, hrep, uploadPhase]
                · cases cl
                  · left; simp [syncUploadA, hrep, uploadPhase]
                  · right
                    exact ⟨id, by simp [syncUploadA, hrep, uploadPhase], rfl,
                      by simp [syncUploadA, hrep, uploadPhase],
                      by simp [syncUploadA, hrep, uploadPhase]⟩

/-- Helper: a select attempt with an explicit show flag always carries
`local_show = forcedShow` in `src/screenshot-frame/main.py`. -/
theorem selectTry_flag_eq {e : Env} {shw : Bool} {id : String} {sf : Bool}
    (h : Ev.selectTry id (some sf) ∈ (syncUpload e shw).trace) :
    sf = forcedShow e.artmode shw := by
  rcases syncUpload_spec e shw with ⟨_, _, _, _, hno⟩ |
    ⟨id0, preE, tailE, hpre, _, _, htr, hlast⟩
  · exact absurd rfl ((hno _ h).1 id (some sf))
  · rw [htr] at h
    simp only [List.mem_append] at h
    rcases h with ((h | h) | h) | h
    · exact absurd rfl ((hpre _ h).1 id (some sf))
    · rcases mem_selectPhase_fst h with h | h
      · simp only [Ev.selectTry.injEq, Option.some.injEq] at h
        exact h.2
      · simp at h
    · rcases mem_deletePhase h with ⟨l, h, _⟩
      simp at h
    · rcases hlast with ⟨_, _, _, htail⟩ | ⟨_, _, _, htail⟩ <;>
        rw [htail] at h
      · simp at h
      · simp only [List.mem_append, List.mem_singleton] at h
        rcases h with h | h
        · simp at h
        · split at h <;> simp at h

/-- Keys after a dict assignment: the old keys plus the assigned key. -/
theorem keysOf_dictInsert (d : List (String × String)) (k v : String) :
    ∀ x, x ∈ keysOf (dictInsert d k v) ↔ (x ∈ keysOf d ∨ x = k) := by
  intro x
  unfold dictInsert
  by_cases hc : d.any (fun p => p.1 = k) = true
  · rw [if_pos hc]
    simp only [keysOf, List.map_map, List.mem_map, Function.comp]
    constructor
    · rintro ⟨p, hp, hx⟩
      by_cases hpk : p.1 = k
      · simp only [if_pos hpk] at hx
        exact Or.inr hx.symm
      · simp only [if_neg hpk] at hx
        exact Or.inl ⟨p, hp, hx⟩
    · rintro (⟨p, hp, hx⟩ | rfl)
      · refine ⟨p, hp, ?_⟩
        by_cases hpk : p.1 = k
        · simp only [if_pos hpk]
          exact hpk ▸ hx
        · simp only [if_neg hpk]
          exact hx
      · obtain ⟨p, hp, hpk⟩ := List.any_eq_true.mp hc
        refine ⟨p, hp, ?_⟩
        simp [of_decide_eq_true hpk]
  · rw [if_neg hc]
    simp [keysOf]

/-! The claims. -/

/-- Environment exhibiting the divergence of `src/main.py`: a run in which
the TV is reachable and supports art mode, the upload returns id `a1`, but
both select attempts fail. -/
def envNoSelA : EnvA :=
  { startOk := true, supportedRes := some true, readOk := true,
    replaceLast := false, lastRecord := some "old0", replaceNet := none,
    matte := none, uploadFirst := .ok (some "a1"), uploadSecond := none,
    selectShow := .err, selectPlain := .err, closeOk := true, writeOk := true }

/-- C1 counterexample: in `src/main.py`'s `upload_image_to_tv_async`
(lines 225-231), after an upload that returned id `a1` whose selection
failed on both attempts, the `last-art-id` record is nevertheless rewritten
from `old0` to `a1` — the record is written after upload alone, refuting
the claim for this variant of the sync operation. -/
theorem c1_counterexample_write_without_select :
    (syncUploadA envNoSelA true).selOk = false ∧
    (syncUploadA envNoSelA true).result = some "a1" ∧
    (syncUploadA envNoSelA true).record = some "a1" ∧
    envNoSelA.lastRecord = some "old0" := by decide

/-- C1 (amended): in `src/screenshot-frame/main.py` the persisted record
changes only in runs where selection succeeded, and every record write in
the trace carries the id the run returns — never after upload alone; in
`src/main.py` the record is persisted whenever the run returns a truthy
id and the file write succeeds, regardless of the selection outcome. -/
theorem c1_record_only_after_select :
    (∀ (e : Env) (shw : Bool),
      ((syncUpload e shw).record ≠ e.lastRecord →
        (syncUpload e shw).selOk = true ∧
        (syncUpload e shw).record = (syncUpload e shw).result) ∧
      (∀ id, Ev.writeRecord id ∈ (syncUpload e shw).trace →
        (syncUpload e shw).selOk = true ∧
        (syncUpload e shw).result = some id)) ∧
    (∀ (e : EnvA) (shw : Bool) (id : String),
      e.writeOk = true → (syncUploadA e shw).result = some id → id ≠ "" →
      (syncUploadA e shw).record = some id) := by
  constructor
  · intro e shw
    rcases syncUpload_spec e shw with ⟨hres, hrec, hcid, hsel, hno⟩ |
      ⟨id, preE, tailE, hpre, hcid, hsel, htr, hlast⟩
    · refine ⟨fun h => absurd hrec h, fun i hi => ?_⟩
      exact absurd rfl ((hno _ hi).2.2 i)
    · rcases hlast with ⟨hcl, hres, hrec, htail⟩ | ⟨hcl, hres, hrec, htail⟩
      · refine ⟨fun h => absurd hrec h, fun i hi => ?_⟩
        rw [htr, htail] at hi
        simp only [List.mem_append] at hi
        rcases hi with ((hi | hi) | hi) | hi
        · exact absurd rfl ((hpre _ hi).2.2 i)
        · rcases mem_selectPhase_fst hi with h | h <;> simp at h
        · rcases mem_deletePhase hi with ⟨l, h, _⟩
          simp at h
        · simp at hi
      · constructor
        · intro h
          rw [hrec] at h ⊢
          split at h
          · next hc =>
              rw [if_pos hc, hres, hsel]
              have := (Bool.and_eq_true _ _).mp hc
              have h1 := (Bool.and_eq_true _ _).mp this.1
              exact ⟨h1.1, rfl⟩
          · exact absurd rfl h
        · intro i hi
          rw [htr, htail] at hi
          simp only [List.mem_append] at hi
          rcases hi with ((hi | hi) | hi) | hi
          · exact absurd rfl ((hpre _ hi).2.2 i)
          · rcases mem_selectPhase_fst hi with h | h <;> simp at h
          · rcases mem_deletePhase hi with ⟨l, h, _⟩
            simp at h
          · rcases hi with hi | hi
            · simp at hi
            · split at hi
              · next hc =>
                  simp only [List.mem_singleton, Ev.writeRecord.injEq] at hi
                  subst hi
                  rw [hsel, hres]
                  exact ⟨((Bool.and_eq_true _ _).mp hc).1, rfl⟩
              · simp at hi
  · intro e shw id hwr hres hid
    rcases syncUploadA_spec e shw with ⟨hres0, _⟩ | ⟨id0, hres0, hcl, hrec, _⟩
    · rw [hres0] at hres
      cases hres
    · rw [hres0] at hres
      injection hres with h
      subst h
      rw [hrec, if_pos (by simp [hid, hwr])]

/-- C1 witness: the `src/main.py` persistence conclusion at the concrete
environment `envNoSelA`. -/
theorem c1_record_only_after_select_witness :
    (syncUploadA envNoSelA true).record = some "a1" :=
  c1_record_only_after_select.2 envNoSelA true "a1" rfl (by decide) (by decide)

/-- C2: in `src/screenshot-frame/main.py`, a delete of the previous id is
issued iff selection succeeded, a previous id exists (truthy), and it
differs from the new content id; every delete occurrence in the trace is
preceded by a select attempt; and the delete outcome has no effect
whatsoever on the run's result. -/
theorem c2_delete_discipline :
    (∀ (e : Env) (shw : Bool) (lid : String),
      Ev.deleteTry lid ∈ (syncUpload e shw).trace ↔
        ((syncUpload e shw).selOk = true ∧ e.lastRecord = some lid ∧
         lid ≠ "" ∧ ∃ id, (syncUpload e shw).cid = some id ∧ lid ≠ id)) ∧
    (∀ (e : Env) (shw : Bool) (lid : String),
      Ev.deleteTry lid ∈ (syncUpload e shw).trace →
        ∃ A B, (syncUpload e shw).trace = A ++ B ∧
          (∀ l, Ev.deleteTry l ∉ A) ∧ Ev.deleteTry lid ∈ B ∧
          ∃ id sf, Ev.selectTry id sf ∈ A) ∧
    (∀ (e : Env) (shw : Bool) (d : SimpleOutcome),
      syncUpload { e with deleteRes := d } shw = syncUpload e shw) := by
  refine ⟨?_, ?_, ?_⟩
  · intro e shw lid
    rcases syncUpload_spec e shw with ⟨hres, hrec, hcid, hsel, hno⟩ |
      ⟨id, preE, tailE, hpre, hcid, hsel, htr, hlast⟩
    · constructor
      · intro h
        exact absurd rfl ((hno _ h).2.1 lid)
      · rintro ⟨-, -, -, id, hcid2, -⟩
        rw [hcid] at hcid2
        cases hcid2
    · constructor
      · intro h
        rw [htr] at h
        simp only [List.mem_append] at h
        rcases h with ((h | h) | h) | h
        · exact absurd rfl ((hpre _ h).2.1 lid)
        · rcases mem_selectPhase_fst h with h | h <;> simp at h
        · rcases deleteTry_mem_deletePhase.mp h with ⟨hsp, hlast2, hne, hneid⟩
          exact ⟨by rw [hsel, hsp], hlast2, hne, id, hcid, hneid⟩
        · rcases hlast with ⟨_, _, _, htail⟩ | ⟨_, _, _, htail⟩ <;>
            rw [htail] at h
          · simp at h
          · simp only [List.mem_append, List.mem_singleton] at h
            rcases h with h | h
            · simp at h
            · split at h <;> simp at h
      · rintro ⟨hsl, hlast2, hne, id2, hcid2, hneid⟩
        rw [hcid] at hcid2
        injection hcid2 with hcid2
        subst hcid2
        rw [htr]
        have hd : Ev.deleteTry lid ∈ deletePhase
            (selectPhase e.selectShow e.selectPlain id
              (forcedShow e.artmode shw)).2 e.lastRecord id :=
          deleteTry_mem_deletePhase.mpr ⟨by rw [← hsel, hsl], hlast2, hne, hneid⟩
        simp only [List.mem_append]
        exact Or.inl (Or.inr hd)
  · intro e shw lid h
    rcases syncUpload_spec e shw with ⟨hres, hrec, hcid, hsel, hno⟩ |
      ⟨id, preE, tailE, hpre, hcid, hsel, htr, hlast⟩
    · exact absurd rfl ((hno _ h).2.1 lid)
    · refine ⟨preE ++ (selectPhase e.selectShow e.selectPlain id
        (forcedShow e.artmode shw)).1,
        deletePhase (selectPhase e.selectShow e.selectPlain id
          (forcedShow e.artmode shw)).2 e.lastRecord id ++ tailE,
        by rw [htr]; simp only [List.append_assoc], ?_, ?_, ?_⟩
      · intro l hl
        rcases List.mem_append.mp hl with hl | hl
        · exact absurd rfl ((hpre _ hl).2.1 l)
        · rcases mem_selectPhase_fst hl with h2 | h2 <;> simp at h2
      · rw [htr] at h
        simp only [List.mem_append] at h
        rcases h with ((h | h) | h) | h
        · exact absurd rfl ((hpre _ h).2.1 lid)
        · rcases mem_selectPhase_fst h with h2 | h2 <;> simp at h2
        · exact List.mem_append.mpr (Or.inl h)
        · rcases hlast with ⟨_, _, _, htail⟩ | ⟨_, _, _, htail⟩ <;>
            rw [htail] at h
          · simp at h
          · simp only [List.mem_append, List.mem_singleton] at h
            rcases h with h | h
            · simp at h
            · split at h <;> simp at h
      · exact ⟨id, some (forcedShow e.artmode shw),
          List.mem_append.mpr (Or.inr (selectTry_mem_selectPhase _ _ _ _))⟩
  · intro e shw d
    cases e
    rfl

/-- Environment for a full happy-path run of `_sync_upload` with a cached
previous id differing from the uploaded one. -/
def envHappy : Env :=
  { openOk := true, supportedRes := some true, readOk := true,
    lastRecord := some "old", matte := none, uploadFirst := .ok (some "new"),
    uploadSecond := none, artmode := some (true, "on"), selectShow := .ok,
    selectPlain := .ok, deleteRes := .ok, closeOk := true, writeOk := true }

/-- C2 witness: on the happy-path environment the delete of `old` is in the
trace and is preceded by a select attempt. -/
theorem c2_delete_discipline_witness :
    ∃ A B, (syncUpload envHappy false).trace = A ++ B ∧
      (∀ l, Ev.deleteTry l ∉ A) ∧ Ev.deleteTry "old" ∈ B ∧
      ∃ id sf, Ev.selectTry id sf ∈ A :=
  c2_delete_discipline.2.1 envHappy false "old" (by decide)

/-- C4: when the capability check reports art mode unsupported, both sync
variants take the unsupported return path, return no id, leave the cached
record untouched, issue a close of the device session, and never upload,
select, delete, replace or write the record in that invocation. -/
theorem c4_unsupported_short_circuit :
    (∀ (e : Env) (shw : Bool), e.openOk = true → e.supportedRes = some false →
      (syncUpload e shw).outcome = .unsupported ∧
      (syncUpload e shw).result = none ∧
      (syncUpload e shw).record = e.lastRecord ∧
      Ev.closeTv ∈ (syncUpload e shw).trace ∧
      (∀ wm, Ev.uploadTry wm ∉ (syncUpload e shw).trace) ∧
      (∀ id sf, Ev.selectTry id sf ∉ (syncUpload e shw).trace) ∧
      (∀ lid, Ev.deleteTry lid ∉ (syncUpload e shw).trace) ∧
      (∀ id, Ev.writeRecord id ∉ (syncUpload e shw).trace)) ∧
    (∀ (e : EnvA) (shw : Bool), e.startOk = true →
      e.supportedRes = some false →
      (syncUploadA e shw).outcome = .unsupported ∧
      (syncUploadA e shw).result = none ∧
      (syncUploadA e shw).record = e.lastRecord ∧
      Ev.closeTv ∈ (syncUploadA e shw).trace ∧
      (∀ wm, Ev.uploadTry wm ∉ (syncUploadA e shw).trace) ∧
      (∀ lid, Ev.replaceAttempt lid ∉ (syncUploadA e shw).trace) ∧
      (∀ id sf, Ev.selectTry id sf ∉ (syncUploadA e shw).trace) ∧
      (∀ lid, Ev.deleteTry lid ∉ (syncUploadA e shw).trace) ∧
      (∀ id, Ev.writeRecord id ∉ (syncUploadA e shw).trace)) := by
  constructor
  · intro e shw hopen hsup
    cases hcl : e.closeOk <;>
      simp [syncUpload, hopen, hsup, closeEvts, hcl]
  · intro e shw hst hsup
    cases hcl : e.closeOk <;>
      simp [syncUploadA, hst, hsup, closeEvts, hcl]

/-- Environment in which the TV reports art mode unsupported. -/
def envUnsupported : Env :=
  { openOk := true, supportedRes := some false, readOk := true,
    lastRecord := some "x", matte := none, uploadFirst := .ok none,
    uploadSecond := none, artmode := none, selectShow := .ok,
    selectPlain := .ok, deleteRes := .ok, closeOk := true, writeOk := true }

/-- C4 witness: the unsupported short-circuit at a concrete environment. -/
theorem c4_unsupported_short_circuit_witness :
    (syncUpload envUnsupported true).outcome = .unsupported ∧
    (syncUpload envUnsupported true).result = none :=
  ⟨(c4_unsupported_short_circuit.1 envUnsupported true rfl rfl).1,
   (c4_unsupported_short_circuit.1 envUnsupported true rfl rfl).2.1⟩

/-- C7: whenever the device reports it is in art-display mode, every select
attempt that carries a show flag carries `true`, regardless of the show
value passed in; when the device does not report art mode (including when
the art-mode query raised), the caller's show flag is used unchanged. -/
theorem c7_artmode_forces_show :
    ∀ (e : Env) (shw : Bool),
      (artModeOn e.artmode = true →
        ∀ id sf, Ev.selectTry id (some sf) ∈ (syncUpload e shw).trace →
          sf = true) ∧
      (artModeOn e.artmode = false →
        ∀ id sf, Ev.selectTry id (some sf) ∈ (syncUpload e shw).trace →
          sf = shw) := by
  intro e shw
  constructor
  · intro hart id sf hmem
    have h := selectTry_flag_eq hmem
    rwa [forcedShow, hart, if_pos rfl] at h
  · intro hart id sf hmem
    have h := selectTry_flag_eq hmem
    rwa [forcedShow, hart] at h

/-- C7 witness: with the device reporting `on` and the caller passing
`show = false`, the select attempt in the happy-path trace carries
`show = true`. -/
theorem c7_artmode_forces_show_witness : true = true :=
  (c7_artmode_forces_show envHappy false).1 (by decide) "new" true (by decide)

/-- C3: the scheduler is drift-corrected: the target stored for the next
cycle is the previous target plus the fixed interval, independent of when
the cycle finished (and the very first target is the first cycle's start
plus the interval); while on schedule the loop sleeps until exactly that
target; and when a cycle runs past its own target the next cycle starts
immediately at `now` and the schedule baseline resets to `now`, so no
catch-up backlog accumulates. -/
theorem c3_drift_corrected_schedule :
    ∀ (interval t s now : ℚ),
      schedTarget (some t) s interval = t + interval ∧
      schedTarget none s interval = s + interval ∧
      (now < t + interval →
        schedStep (some t) s now interval = (t + interval, t + interval)) ∧
      (t + interval ≤ now →
        schedStep (some t) s now interval = (now, now)) := by
  intro interval t s now
  refine ⟨rfl, rfl, ?_, ?_⟩
  · intro h
    have hp : 0 < t + interval - now := by linarith
    simp [schedStep, schedTarget, hp]
  · intro h
    have hp : ¬ 0 < t + interval - now := by linarith
    simp [schedStep, schedTarget, hp]

/-- C3 witness: with target `10 + 5 = 15` and a cycle finishing at `17`,
past its target, the next cycle starts immediately at `17` and the baseline
resets to `17`. -/
theorem c3_drift_corrected_schedule_witness :
    schedStep (some 10) 0 17 5 = (17, 17) :=
  (c3_drift_corrected_schedule 5 10 0 17).2.2.2 (by norm_num)

/-- C5 counterexample: a body starting with the JPEG magic bytes `FF D8`
served with content-type `text/html` is classified as HTML and routed to
the renderer, not stored as an image — so a JPEG-magic body is not
classified as an image "regardless of the content-type header". -/
theorem c5_counterexample_jpeg_html_ctype :
    isHtmlResponse (some "text/html") [255, 216, 255, 224] = true ∧
    firstNonWs [255, 216, 255, 224] = some 255 := by decide

/-- C5 (amended): a 200 body is routed to the renderer exactly when the
lower-cased content-type starts with `text/html` or the body is nonempty
with `<` as its first non-whitespace byte; consequently a body starting
with the JPEG magic bytes is classified as an image exactly when the
content-type does not start with `text/html`.  In particular a `<html`
body with no content-type is HTML and a JPEG body with content-type
`image/jpeg` is an image. -/
theorem c5_html_classification :
    (∀ (h : Option String) (body : List Nat),
      isHtmlResponse h body = true ↔
        (strStarts (ctypeOf h) "text/html" = true ∨
         (body ≠ [] ∧ firstNonWs body = some 60))) ∧
    (∀ (h : Option String) (rest : List Nat),
      isHtmlResponse h (255 :: 216 :: rest) =
        strStarts (ctypeOf h) "text/html") ∧
    isHtmlResponse (some "image/jpeg") [255, 216, 255, 224] = false ∧
    isHtmlResponse none [32, 10, 60, 104, 116, 109, 108] = true := by
  refine ⟨?_, ?_, by decide, by decide⟩
  · intro h body
    simp [isHtmlResponse, List.length_pos]
  · intro h rest
    simp [isHtmlResponse, firstNonWs, List.dropWhile, isWsByte]

/-- C6: request-header construction.  With a valid static-header map:
bearer auth (with a truthy token) yields exactly the static keys plus the
configured token header and no basic credential; basic auth (with truthy
credentials) leaves the headers exactly the static ones and yields the
credential pair; a malformed static-header configuration produces exactly
the same request as no static headers at all; and valid static header keys
are always present, whatever the auth mode. -/
theorem c6_header_construction :
    (∀ (hs : List (String × String)) (th tp tok : String)
        (u p : Option String), tok ≠ "" →
      (∀ k,
        k ∈ keysOf (buildRequest (.valid hs) "bearer" (some tok) th tp u p).1
          ↔ (k ∈ keysOf (staticHeaders (.valid hs)) ∨ k = th)) ∧
      (buildRequest (.valid hs) "bearer" (some tok) th tp u p).2 = none) ∧
    (∀ (hs : List (String × String)) (th tp u p : String)
        (tok : Option String), u ≠ "" → p ≠ "" →
      (buildRequest (.valid hs) "basic" tok th tp (some u) (some p)).1 =
        staticHeaders (.valid hs) ∧
      (buildRequest (.valid hs) "basic" tok th tp (some u) (some p)).2 =
        some (u, p)) ∧
    (∀ (aty : String) (tok : Option String) (th tp : String)
        (u p : Option String),
      buildRequest .malformed aty tok th tp u p =
        buildRequest .absent aty tok th tp u p) ∧
    (∀ (hs : List (String × String)) (aty : String) (tok : Option String)
        (th tp : String) (u p : Option String) (k : String),
      k ∈ keysOf (staticHeaders (.valid hs)) →
      k ∈ keysOf (buildRequest (.valid hs) aty tok th tp u p).1) := by
  refine ⟨?_, ?_, ?_, ?_⟩
  · intro hs th tp tok u p htok
    have hc : ("bearer" : String) = "bearer" ∧
        optTruthy (some tok) = true := ⟨rfl, by simp [optTruthy, htok]⟩
    constructor
    · intro k
      rw [buildRequest, if_pos hc]
      exact keysOf_dictInsert _ _ _ k
    · rw [buildRequest, if_pos hc]
  · intro hs th tp u p tok hu hp
    have hc1 : ¬ (("basic" : String) = "bearer" ∧ optTruthy tok = true) := by
      rintro ⟨h, -⟩
      simp at h
    have hc2 : ("basic" : String) = "basic" ∧
        optTruthy (some u) = true ∧ optTruthy (some p) = true :=
      ⟨rfl, by simp [optTruthy, hu], by simp [optTruthy, hp]⟩
    rw [buildRequest, if_neg hc1, if_pos hc2]
    exact ⟨rfl, rfl⟩
  · intro aty tok th tp u p
    rfl
  · intro hs aty tok th tp u p k hk
    rw [buildRequest]
    split
    · exact (keysOf_dictInsert _ _ _ k).mpr (Or.inl hk)
    · split
      · exact hk
      · exact hk

/-- C6 witness: with a static header `X-A` and bearer auth, the result
contains the `Authorization` key. -/
theorem c6_header_construction_witness :
    "Authorization" ∈ keysOf (buildRequest (.valid [("X-A", "1")]) "bearer"
      (some "t") "Authorization" "Bearer" none none).1 :=
  ((c6_header_construction.1 [("X-A", "1")] "Authorization" "Bearer" "t"
      none none (by decide)).1 "Authorization").mpr (Or.inr rfl)

/-- C9 counterexample: at zoom `150` the playwright renderer of
`src/main.py` changes the device scale factor to `3/2` and applies no
layout scaling — zoom is applied via the device pixel ratio, refuting the
claim for this renderer. -/
theorem c9_counterexample_playwright_dpr :
    (playwrightRenderZoom 150).deviceScaleFactor = some (3 / 2 : ℚ) ∧
    (playwrightRenderZoom 150).layoutZoomPercent = none := by
  constructor
  · norm_num [playwrightRenderZoom]
  · rfl

/-- C9 (amended): the pyppeteer renderer of
`src/screenshot-frame/main.py` applies zoom by scaling the page layout
exactly when the requested zoom differs from 100 and never touches the
device scale factor; the playwright renderer of `src/main.py` instead
always sets the context's device scale factor to `zoom/100` and never
scales the layout. -/
theorem c9_zoom_application :
    ∀ zoom : Nat,
      (zoom ≠ 100 → pyppeteerRenderZoom zoom =
        { layoutZoomPercent := some zoom, deviceScaleFactor := none }) ∧
      pyppeteerRenderZoom 100 =
        { layoutZoomPercent := none, deviceScaleFactor := none } ∧
      (playwrightRenderZoom zoom).deviceScaleFactor =
        some ((zoom : ℚ) / 100) ∧
      (playwrightRenderZoom zoom).layoutZoomPercent = none := by
  intro zoom
  exact ⟨fun h => by simp [pyppeteerRenderZoom, h], rfl, rfl, rfl⟩

/-- C9 witness: at zoom `150` the pyppeteer renderer scales the layout to
`150` percent and leaves the device scale factor unset. -/
theorem c9_zoom_application_witness :
    pyppeteerRenderZoom 150 =
      { layoutZoomPercent := some 150, deviceScaleFactor := none } :=
  (c9_zoom_application 150).1 (by decide)

/-- C10: with no TV configured but a target URL set, every cycle's status
update ends with `lastSuccess = true`, `lastSyncTime = now` and
`lastError = none` — whatever the fetch outcome and previous status — even
though a fetch failure recorded its error message into the status earlier
in the same cycle. -/
theorem c10_no_tv_status_success :
    (∀ (ferr : Option String) (call : UploadCall) (s : SyncStatus) (now : ℚ),
      cycleStatus false true ferr call s now = ⟨some now, true, none⟩) ∧
    (∀ (msg : String) (s : SyncStatus),
      fetchPhase (some msg) s = { s with lastError := some msg }) := by
  constructor
  · intro ferr call s now
    simp [cycleStatus, tvPhase]
  · intro msg s
    rfl

end ScreenshotFrame
